import Mathlib

/-!
# NexaBridge multi-step form wizard: a shallow embedding

This file embeds the step-wizard core of the NexaBridge repository
(`src/components/StepForm.jsx`, the component shipped via `App.jsx`, together
with the stricter file-validation variant in `src/components/MultiStepForm.jsx`)
and proves properties of the embedded definitions.

Modelling conventions:
* JavaScript strings are Lean `String`s; `s.length` is the character count
  (the concrete inputs used below are ASCII, where this agrees with JS).
* The yup schemas `projectNameSchema`, `analysisDescriptionSchema` and
  `fileUploadSchema` are embedded with the actual yup semantics:
  `required(msg)` fails exactly on the empty string, `min(n, msg)` compares
  the untrimmed length (yup performs no trimming unless `.trim()` is added,
  and the source adds none).
* React state is a record `WizardState`; each event handler becomes a function
  from state to state, paired with the transient toast notification it emits
  (`Option String`) where the handler calls `toast.error`.
* UI gating (a handler being attached only to an element rendered at a given
  step, or a button being `disabled`) is modelled by the corresponding guard
  on the click function, since those are the only ways the handler can fire.
* The simulated submission (`await new Promise(resolve => setTimeout(...))`)
  is a transport that always succeeds; `onSubmitRun` is parametrised by the
  transport outcome so that the `catch` branch of the source can be stated.
* The `Typewriter` timer loop of the component is modelled as a discrete tick
  machine: timing parameters (`speed`, `delay`) only schedule ticks and do not
  influence which strings are emitted, so the emitted sequence is a function
  of the number of ticks elapsed.
-/

/-- A selected file handle as the wizard sees it: a name and a size in bytes
(`e.target.files` entries; only `name` and `size` are consulted by the core). -/
structure FileHandle where
  name : String
  size : Nat
  deriving DecidableEq, Repr

/-- Result of validating the fields of one step: `valid`, or `invalid field message`
(yup reports a failing field name together with its error message). -/
inductive ValidationResult where
  | valid : ValidationResult
  | invalid : String → String → ValidationResult
  deriving DecidableEq, Repr

/-- `projectNameSchema` from `StepForm.jsx` line 52:
`yup.string().required("Project name is required").min(3, "Project name must be at least 3 characters")`.
The yup `required` fails exactly on the empty string, and `min(3)` compares the
untrimmed length. -/
def projectNameSchema (projectName : String) : ValidationResult :=
  if projectName = "" then
    .invalid "projectName" "Project name is required"
  else if projectName.length < 3 then
    .invalid "projectName" "Project name must be at least 3 characters"
  else
    .valid

/-- `analysisDescriptionSchema` from `StepForm.jsx` line 56:
`yup.string().required("Analysis description is required").min(10, "Please provide more details (at least 10 characters)")`. -/
def analysisDescriptionSchema (analysisDescription : String) : ValidationResult :=
  if analysisDescription = "" then
    .invalid "analysisDescription" "Analysis description is required"
  else if analysisDescription.length < 10 then
    .invalid "analysisDescription" "Please provide more details (at least 10 characters)"
  else
    .valid

/-- `fileUploadSchema` from `MultiStepForm.jsx` lines 16-21: the custom test
returns `true` when the selection is empty, otherwise checks
`Array.from(value).every(file => file.size <= 5 * 1024 * 1024)`. -/
def fileUploadSchema (files : List FileHandle) : ValidationResult :=
  if files.length = 0 then
    .valid
  else if files.all (fun file => file.size ≤ 5 * 1024 * 1024) then
    .valid
  else
    .invalid "files" "File size is too large"

/-- The raw field inputs a validation call can consult, one record for all
steps (mirroring the interface of the spec, `validate(step, fields)`). -/
structure Fields where
  projectName : String
  analysisDescription : String
  files : List FileHandle
  deriving DecidableEq, Repr

/-- The Step Validator of the spec, `validate(step, fields)`, dispatching to the
per-step yup schema embedded above; steps without a schema validate trivially. -/
def validate (step : Nat) (fields : Fields) : ValidationResult :=
  match step with
  | 1 => projectNameSchema fields.projectName
  | 2 => analysisDescriptionSchema fields.analysisDescription
  | 3 => fileUploadSchema fields.files
  | _ => .valid

/-- The React state of the shipped `MultiStepForm` component
(`StepForm.jsx` lines 43-49): step index, accumulated fields, selected files
and the submission flags. -/
structure WizardState where
  step : Nat
  projectName : String
  analysisDescription : String
  files : List FileHandle
  isSubmitting : Bool
  submitError : Option String
  submitSuccess : Bool
  deriving DecidableEq, Repr

/-- The initial state (`useState` initialisers, `StepForm.jsx` lines 43-49). -/
def initialWizardState : WizardState :=
  { step := 1
    projectName := ""
    analysisDescription := ""
    files := []
    isSubmitting := false
    submitError := none
    submitSuccess := false }

/-- `onStep1Submit` (`StepForm.jsx` lines 83-91): on valid input stores the
project name and advances to step 2; otherwise toasts the field error and
leaves the state untouched.  Returns the new state together with the toast. -/
def onStep1Submit (data : String) (s : WizardState) : WizardState × Option String :=
  match projectNameSchema data with
  | .valid => ({ s with projectName := data, step := 2 }, none)
  | .invalid _ msg => (s, some msg)

/-- `onStep2Submit` (`StepForm.jsx` lines 93-99): on valid input stores the
description and advances to step 3; the invalid branch has no `else`, so no
toast is emitted and the state is untouched. -/
def onStep2Submit (data : String) (s : WizardState) : WizardState × Option String :=
  match analysisDescriptionSchema data with
  | .valid => ({ s with analysisDescription := data, step := 3 }, none)
  | .invalid _ _ => (s, none)

/-- `handleFileChange` (`StepForm.jsx` lines 79-81): replaces the selection
wholesale with `Array.from(e.target.files)`. -/
def handleFileChange (fs : List FileHandle) (s : WizardState) : WizardState :=
  { s with files := fs }

/-- `handleSkipFiles` (`StepForm.jsx` lines 101-103): sets the step to 4
unconditionally. -/
def handleSkipFiles (s : WizardState) : WizardState :=
  { s with step := 4 }

/-- A click on the step-3 SKIP button: the button is rendered only when
`step === 3` and `files.length === 0` (`StepForm.jsx` lines 340-356), and its
handler is `handleSkipFiles`; any other click is impossible, hence a no-op. -/
def step3SkipClick (s : WizardState) : WizardState :=
  if s.step = 3 ∧ s.files.length = 0 then handleSkipFiles s else s

/-- A click on the step-3 Next button: rendered only when `step === 3` and
`files.length > 0` (`StepForm.jsx` lines 340-347), with handler
`() => setStep(4)`; any other click is impossible, hence a no-op. -/
def step3NextClick (s : WizardState) : WizardState :=
  if s.step = 3 ∧ 0 < s.files.length then { s with step := 4 } else s

/-- The synchronous prefix of `onSubmit` (`StepForm.jsx` lines 116-118):
`setIsSubmitting(true); setSubmitError(null)` before awaiting the transport. -/
def submitStart (s : WizardState) : WizardState :=
  { s with isSubmitting := true, submitError := none }

/-- The continuation of `onSubmit` after the awaited transport settles
(`StepForm.jsx` lines 119-126): on fulfilment `setSubmitSuccess(true)`; on
rejection the `catch` branch only toasts the reason (it stores nothing); the
`finally` branch runs `setIsSubmitting(false)` either way. -/
def submitFinish (outcome : Except String Unit) (s : WizardState) :
    WizardState × Option String :=
  match outcome with
  | .ok _ => ({ s with submitSuccess := true, isSubmitting := false }, none)
  | .error reason => ({ s with isSubmitting := false }, some reason)

/-- One complete run of `onSubmit` against a transport with the given
outcome: the synchronous prefix followed by the settled continuation. -/
def onSubmitRun (outcome : Except String Unit) (s : WizardState) :
    WizardState × Option String :=
  submitFinish outcome (submitStart s)

/-- The shipped transport (`StepForm.jsx` line 120):
`await new Promise(resolve => setTimeout(resolve, 1500))` — a promise that is
only ever resolved, never rejected, so the outcome is always success. -/
def simulatedTransport : Except String Unit := .ok ()

/-- `onSubmit` as shipped: a run against the simulated transport. -/
def onSubmit (s : WizardState) : WizardState × Option String :=
  onSubmitRun simulatedTransport s

/-- A click on the DONE button (`StepForm.jsx` lines 428-434): the button
carries `disabled={isSubmitting}`, so a click while a submission is in flight
does nothing; otherwise it starts `onSubmit`.  The second component counts
submission tasks started by the click (the transport invocations). -/
def clickSubmit (s : WizardState) : WizardState × Nat :=
  if s.isSubmitting then (s, 0) else (submitStart s, 1)

/-- The states the shipped wizard can reach through its UI: from the initial
state, via exactly the events the rendered markup exposes.  Each form or
button exists only at its step (`step === n && (...)` in the JSX), which is
the side condition of the corresponding constructor; a settled submission
presupposes one in flight. -/
inductive Reachable : WizardState → Prop where
  | init : Reachable initialWizardState
  | step1 (s : WizardState) (data : String) :
      Reachable s → s.step = 1 → Reachable (onStep1Submit data s).1
  | step2 (s : WizardState) (data : String) :
      Reachable s → s.step = 2 → Reachable (onStep2Submit data s).1
  | selectFiles (s : WizardState) (fs : List FileHandle) :
      Reachable s → s.step = 3 → Reachable (handleFileChange fs s)
  | skipFiles (s : WizardState) :
      Reachable s → Reachable (step3SkipClick s)
  | nextFiles (s : WizardState) :
      Reachable s → Reachable (step3NextClick s)
  | submitClick (s : WizardState) :
      Reachable s → s.step = 4 → Reachable (clickSubmit s).1
  | submitSettle (s : WizardState) (outcome : Except String Unit) :
      Reachable s → s.isSubmitting = true →
      Reachable (submitFinish outcome s).1

/-!
## The Typewriter text-reveal producer

`Typewriter` (`StepForm.jsx` lines 11-40) keeps `displayedText` and
`currentIndex`; each timer tick with `currentIndex < text.length` appends
`text[currentIndex]` to `displayedText` (which the component renders) and
increments the index; a tick past the end changes nothing.  When `text`
changes, the cleanup clears the pending timeout and the reset effect sets
`displayedText` to `""` and `currentIndex` to `0`.  Timing (`speed`, `delay`)
decides only when ticks fire, never what they emit, so the emitted sequence is
a function of the number of elapsed ticks.
-/

/-- The `Typewriter` state of the component: the target `text` prop and the
`displayedText` / `currentIndex` state hooks. -/
structure TwState where
  text : String
  displayedText : String
  currentIndex : Nat
  deriving DecidableEq, Repr

/-- Mounting the component with a target text (`useState("")`, `useState(0)`). -/
def twInit (text : String) : TwState :=
  { text := text, displayedText := "", currentIndex := 0 }

/-- The reset effect on a `text` change (`StepForm.jsx` lines 28-32): the
pending timeout is cleared and the prefix restarts empty at index 0. -/
def twSetText (text : String) (_s : TwState) : TwState :=
  { text := text, displayedText := "", currentIndex := 0 }

/-- One timer tick (`StepForm.jsx` lines 17-22): while `currentIndex` is
inside the text, append `text[currentIndex]` and advance; the emitted value is
the new rendered `displayedText`.  Past the end the callback does nothing. -/
def twTick (s : TwState) : TwState × Option String :=
  if s.currentIndex < s.text.length then
    let d := s.displayedText.push (s.text.data.getD s.currentIndex ' ')
    ({ s with displayedText := d, currentIndex := s.currentIndex + 1 }, some d)
  else
    (s, none)

/-- The sequence of strings the component renders over the next `n` ticks. -/
def twRun (s : TwState) : Nat → List String
  | 0 => []
  | n + 1 =>
    match twTick s with
    | (s', some d) => d :: twRun s' n
    | (s', none) => twRun s' n

/-- The data-model invariant of the spec (§3): a non-empty project name of at
least 3 characters once past step 1, a non-empty description of at least 10
characters once past step 2. -/
def WizardInv (s : WizardState) : Prop :=
  (2 ≤ s.step → s.projectName ≠ "" ∧ 3 ≤ s.projectName.length)
    ∧ (3 ≤ s.step → s.analysisDescription ≠ "" ∧ 10 ≤ s.analysisDescription.length)

/-- Modelled from the spec: §4.2 measures field lengths "after trimming",
i.e. after removing leading and trailing whitespace as JavaScript
`String.prototype.trim` does.  The shipped schemas never trim, so this
definition exists only to compare the spec wording with the code. -/
def trimmedLength (s : String) : Nat :=
  (((s.data.dropWhile Char.isWhitespace).reverse.dropWhile Char.isWhitespace).reverse).length

/-! ## Lemmas about the validators -/

theorem projectNameSchema_valid_iff (s : String) :
    projectNameSchema s = .valid ↔ 3 ≤ s.length := by
  unfold projectNameSchema
  split
  · subst s
    simp [String.length]
  · split
    · simp only [reduceCtorEq, false_iff]
      omega
    · simp only [true_iff]
      omega

theorem projectNameSchema_valid_implies (s : String)
    (h : projectNameSchema s = .valid) : s ≠ "" ∧ 3 ≤ s.length := by
  unfold projectNameSchema at h
  split at h
  · exact absurd h (by simp)
  next h1 =>
    split at h
    · exact absurd h (by simp)
    next h2 => exact ⟨h1, by omega⟩

theorem analysisDescriptionSchema_valid_iff (s : String) :
    analysisDescriptionSchema s = .valid ↔ 10 ≤ s.length := by
  unfold analysisDescriptionSchema
  split
  · subst s
    simp [String.length]
  · split
    · simp only [reduceCtorEq, false_iff]
      omega
    · simp only [true_iff]
      omega

theorem analysisDescriptionSchema_valid_implies (s : String)
    (h : analysisDescriptionSchema s = .valid) : s ≠ "" ∧ 10 ≤ s.length := by
  unfold analysisDescriptionSchema at h
  split at h
  · exact absurd h (by simp)
  next h1 =>
    split at h
    · exact absurd h (by simp)
    next h2 => exact ⟨h1, by omega⟩

/-! ## C2 and C3: the per-step validators -/

/-- C2 (counterexample). The claim says `validate(1, {projectName: s})` is
Valid iff `s` has length at least 3 after trimming.  The code never trims:
on the input `"ab "` (three characters, two after trimming) the validator
returns Valid although the trimmed length is 2. -/
theorem projectName_trim_counterexample :
    validate 1 { projectName := "ab ", analysisDescription := "", files := [] }
        = .valid
      ∧ trimmedLength "ab " < 3 := by
  decide

/-- C2 (amended): `validate(1, {projectName: s})` returns Valid iff `s` has
length at least 3, with no trimming; an empty `s` yields the message
"Project name is required" and a non-empty `s` of fewer than 3 characters
yields "Project name must be at least 3 characters". -/
theorem validate_step1_characterization (s a : String) (fs : List FileHandle) :
    (validate 1 ⟨s, a, fs⟩ = .valid ↔ 3 ≤ s.length)
      ∧ (s = "" →
          validate 1 ⟨s, a, fs⟩ = .invalid "projectName" "Project name is required")
      ∧ (s ≠ "" → s.length < 3 →
          validate 1 ⟨s, a, fs⟩
            = .invalid "projectName" "Project name must be at least 3 characters") := by
  refine ⟨projectNameSchema_valid_iff s, ?_, ?_⟩
  · intro h
    subst h
    rfl
  · intro h1 h2
    show projectNameSchema s = _
    unfold projectNameSchema
    rw [if_neg h1, if_pos h2]

/-- Witness for the amended C2 at concrete inputs. -/
theorem validate_step1_characterization_witness :
    validate 1 { projectName := "", analysisDescription := "", files := [] }
        = .invalid "projectName" "Project name is required"
      ∧ validate 1 { projectName := "ab", analysisDescription := "", files := [] }
        = .invalid "projectName" "Project name must be at least 3 characters"
      ∧ validate 1 { projectName := "abc", analysisDescription := "", files := [] }
        = .valid :=
  ⟨(validate_step1_characterization "" "" []).2.1 rfl,
   (validate_step1_characterization "ab" "" []).2.2 (by decide) (by decide),
   (validate_step1_characterization "abc" "" []).1.mpr (by decide)⟩

/-- C3 (counterexample). The claim says `validate(2, {analysisDescription: s})`
is Valid iff `s` has length at least 10 after trimming.  The code never trims:
on `"abcdefghi "` (ten characters, nine after trimming) the validator returns
Valid although the trimmed length is 9. -/
theorem analysisDescription_trim_counterexample :
    validate 2 { projectName := "", analysisDescription := "abcdefghi ", files := [] }
        = .valid
      ∧ trimmedLength "abcdefghi " < 10 := by
  decide

/-- C3 (amended): `validate(2, {analysisDescription: s})` returns Valid iff
`s` has length at least 10, with no trimming; an empty `s` yields
"Analysis description is required" and a non-empty `s` of fewer than 10
characters yields "Please provide more details (at least 10 characters)". -/
theorem validate_step2_characterization (p s : String) (fs : List FileHandle) :
    (validate 2 ⟨p, s, fs⟩ = .valid ↔ 10 ≤ s.length)
      ∧ (s = "" →
          validate 2 ⟨p, s, fs⟩
            = .invalid "analysisDescription" "Analysis description is required")
      ∧ (s ≠ "" → s.length < 10 →
          validate 2 ⟨p, s, fs⟩
            = .invalid "analysisDescription"
                "Please provide more details (at least 10 characters)") := by
  refine ⟨analysisDescriptionSchema_valid_iff s, ?_, ?_⟩
  · intro h
    subst h
    rfl
  · intro h1 h2
    show analysisDescriptionSchema s = _
    unfold analysisDescriptionSchema
    rw [if_neg h1, if_pos h2]

/-- Witness for the amended C3 at concrete inputs. -/
theorem validate_step2_characterization_witness :
    validate 2 { projectName := "", analysisDescription := "", files := [] }
        = .invalid "analysisDescription" "Analysis description is required"
      ∧ validate 2 { projectName := "", analysisDescription := "too short", files := [] }
        = .invalid "analysisDescription"
            "Please provide more details (at least 10 characters)"
      ∧ validate 2 ⟨"", "a sufficiently long description", []⟩ = .valid :=
  ⟨(validate_step2_characterization "" "" []).2.1 rfl,
   (validate_step2_characterization "" "too short" []).2.2 (by decide) (by decide),
   (validate_step2_characterization "" "a sufficiently long description" []).1.mpr
     (by decide)⟩

/-! ## C8: the strict file-size variant -/

/-- C8: in the strict variant, `validate(3, files)` is Valid iff every
selected file has size at most 5 MiB (the empty selection is Valid), and
otherwise it is Invalid with message "File size is too large", rejecting the
whole selection. -/
theorem validate_step3_characterization (p a : String) (files : List FileHandle) :
    (validate 3 ⟨p, a, files⟩ = .valid ↔ ∀ f ∈ files, f.size ≤ 5 * 1024 * 1024)
      ∧ (¬ (∀ f ∈ files, f.size ≤ 5 * 1024 * 1024) →
          validate 3 ⟨p, a, files⟩ = .invalid "files" "File size is too large")
      ∧ validate 3 ⟨p, a, []⟩ = .valid := by
  have key : fileUploadSchema files = .valid ↔ ∀ f ∈ files, f.size ≤ 5 * 1024 * 1024 := by
    unfold fileUploadSchema
    split
    next h0 =>
      have : files = [] := List.length_eq_zero.mp h0
      subst this
      simp
    next h0 =>
      split
      next hall =>
        simp only [true_iff]
        intro f hf
        simpa using (List.all_eq_true.mp hall) f hf
      next hall =>
        simp only [reduceCtorEq, false_iff]
        intro hforall
        exact hall (List.all_eq_true.mpr fun f hf => by simpa using hforall f hf)
  refine ⟨key, ?_, rfl⟩
  intro hne
  have hval : ¬ fileUploadSchema files = .valid := fun h => hne (key.mp h)
  show fileUploadSchema files = _
  unfold fileUploadSchema at hval ⊢
  split at hval
  · exact absurd rfl hval
  next h0 =>
    rw [if_neg h0]
    split at hval
    · exact absurd rfl hval
    next hall => rw [if_neg hall]

/-- Witness for C8: the empty selection and a one-file selection pass, a
selection containing a file one byte over 5 MiB is rejected with the message. -/
theorem validate_step3_characterization_witness :
    validate 3 ⟨"", "", []⟩ = .valid
      ∧ validate 3 ⟨"", "", [⟨"small.txt", 1024⟩]⟩ = .valid
      ∧ validate 3 ⟨"", "", [⟨"small.txt", 1024⟩, ⟨"big.bin", 5 * 1024 * 1024 + 1⟩]⟩
        = .invalid "files" "File size is too large" :=
  ⟨(validate_step3_characterization "" "" []).1.mpr (by decide),
   (validate_step3_characterization "" "" [⟨"small.txt", 1024⟩]).1.mpr (by decide),
   (validate_step3_characterization "" ""
       [⟨"small.txt", 1024⟩, ⟨"big.bin", 5 * 1024 * 1024 + 1⟩]).2.1 (by decide)⟩

/-! ## C4: step-1 submission -/

/-- C4: from step 1, `onStep1Submit` either stores the project name and
advances the step from 1 to 2 (touching nothing else and emitting no toast),
or, on invalid input, toasts the field error message and leaves the whole
state unchanged; the model has no effects beyond the returned state and
toast. -/
theorem onStep1Submit_characterization (s : WizardState) (data : String)
    (h1 : s.step = 1) :
    (projectNameSchema data = .valid →
        onStep1Submit data s = ({ s with projectName := data, step := s.step + 1 }, none))
      ∧ (∀ fld msg, projectNameSchema data = .invalid fld msg →
          onStep1Submit data s = (s, some msg)) := by
  constructor
  · intro hv
    unfold onStep1Submit
    rw [hv, h1]
  · intro fld msg hv
    unfold onStep1Submit
    rw [hv]

/-- Witness for C4: the valid input "abc" advances the initial state to step 2
and the empty input toasts the required-message leaving the state unchanged. -/
theorem onStep1Submit_characterization_witness :
    onStep1Submit "abc" initialWizardState
        = ({ initialWizardState with projectName := "abc", step := 2 }, none)
      ∧ onStep1Submit "" initialWizardState
        = (initialWizardState, some "Project name is required") :=
  ⟨(onStep1Submit_characterization initialWizardState "abc" rfl).1 (by decide),
   (onStep1Submit_characterization initialWizardState "" rfl).2
     "projectName" "Project name is required" (by decide)⟩

/-! ## C5: at most one submission in flight -/

/-- C5: two clicks of the DONE button in rapid succession start exactly one
submission task: the first click (from an idle state) starts one, and the
second click, arriving while the first is still in flight, is a silent no-op
because the button is disabled while `isSubmitting` — it starts zero tasks and
changes nothing. -/
theorem clickSubmit_once (s : WizardState) (h : s.isSubmitting = false) :
    (clickSubmit s).2 = 1
      ∧ (clickSubmit (clickSubmit s).1).2 = 0
      ∧ (clickSubmit (clickSubmit s).1).1 = (clickSubmit s).1
      ∧ (clickSubmit s).2 + (clickSubmit (clickSubmit s).1).2 = 1 := by
  unfold clickSubmit submitStart
  rw [h]
  simp

/-- Witness for C5 at a concrete step-4 idle state. -/
theorem clickSubmit_once_witness :
    (clickSubmit { initialWizardState with step := 4 }).2 = 1
      ∧ (clickSubmit (clickSubmit { initialWizardState with step := 4 }).1).2 = 0
      ∧ (clickSubmit (clickSubmit { initialWizardState with step := 4 }).1).1
        = (clickSubmit { initialWizardState with step := 4 }).1
      ∧ (clickSubmit { initialWizardState with step := 4 }).2
          + (clickSubmit (clickSubmit { initialWizardState with step := 4 }).1).2 = 1 :=
  clickSubmit_once { initialWizardState with step := 4 } rfl

/-! ## C6: behaviour on transport failure -/

/-- C6 (counterexample). The claim says a transport failure sets
`submissionStatus` to Failed(reason).  In the shipped code the `catch` branch
only toasts: `submitError` is never written (it is reset to null on entry and
left null in `catch`), so after a failed run from a step-4 idle state the
state is exactly what it was before the click — no Failed status is recorded
anywhere. -/
theorem submit_failure_counterexample :
    (onSubmitRun (.error "network error") { initialWizardState with step := 4 }).1
        = { initialWizardState with step := 4 }
      ∧ (onSubmitRun (.error "network error")
          { initialWizardState with step := 4 }).1.submitError = none := by
  decide

/-- C6 (amended): when the transport fails during `submit()`, the wizard
surfaces the reason as a transient toast, records no Failed status in state
(`submitError` stays null and `submitSuccess` is unchanged), the step remains
4, the in-flight flag is cleared, and a retried click starts a new submission
task. -/
theorem submit_failure_behaviour (s : WizardState) (reason : String)
    (h4 : s.step = 4) :
    (onSubmitRun (.error reason) s).2 = some reason
      ∧ (onSubmitRun (.error reason) s).1.step = 4
      ∧ (onSubmitRun (.error reason) s).1.submitError = none
      ∧ (onSubmitRun (.error reason) s).1.submitSuccess = s.submitSuccess
      ∧ (onSubmitRun (.error reason) s).1.isSubmitting = false
      ∧ (clickSubmit (onSubmitRun (.error reason) s).1).2 = 1 := by
  unfold onSubmitRun submitFinish submitStart clickSubmit
  simp [h4]

/-- Witness for the amended C6 at a concrete step-4 state. -/
theorem submit_failure_behaviour_witness :
    (onSubmitRun (.error "boom") { initialWizardState with step := 4 }).2 = some "boom"
      ∧ (onSubmitRun (.error "boom") { initialWizardState with step := 4 }).1.step = 4
      ∧ (onSubmitRun (.error "boom")
          { initialWizardState with step := 4 }).1.submitError = none
      ∧ (onSubmitRun (.error "boom") { initialWizardState with step := 4 }).1.submitSuccess
        = ({ initialWizardState with step := 4 } : WizardState).submitSuccess
      ∧ (onSubmitRun (.error "boom")
          { initialWizardState with step := 4 }).1.isSubmitting = false
      ∧ (clickSubmit (onSubmitRun (.error "boom")
          { initialWizardState with step := 4 }).1).2 = 1 :=
  submit_failure_behaviour { initialWizardState with step := 4 } "boom" rfl

/-! ## C7: leaving step 3 -/

/-- C7: at step 3 with no files selected, a SKIP click moves the step to 4;
a Next click with no files selected is impossible (the button is not
rendered), hence rejected with no state change; a Next click with a non-empty
selection moves the step to 4 and leaves the selection untouched. -/
theorem step3_advance_characterization (s : WizardState) (h3 : s.step = 3) :
    (s.files = [] → step3SkipClick s = { s with step := 4 })
      ∧ (s.files = [] → step3NextClick s = s)
      ∧ (s.files ≠ [] →
          step3NextClick s = { s with step := 4 }
            ∧ (step3NextClick s).files = s.files) := by
  refine ⟨?_, ?_, ?_⟩
  · intro hf
    unfold step3SkipClick handleSkipFiles
    rw [if_pos ⟨h3, by simp [hf]⟩]
  · intro hf
    unfold step3NextClick
    rw [if_neg (by simp [hf])]
  · intro hf
    have hlen : 0 < s.files.length := List.length_pos.mpr hf
    unfold step3NextClick
    rw [if_pos ⟨h3, hlen⟩]
    exact ⟨rfl, rfl⟩

/-- Witness for C7 at concrete step-3 states with and without a selection. -/
theorem step3_advance_characterization_witness :
    step3SkipClick { initialWizardState with step := 3 }
        = { initialWizardState with step := 4 }
      ∧ step3NextClick { initialWizardState with step := 3 }
        = { initialWizardState with step := 3 }
      ∧ step3NextClick { initialWizardState with step := 3, files := [⟨"a.txt", 7⟩] }
        = { initialWizardState with step := 4, files := [⟨"a.txt", 7⟩] } :=
  ⟨(step3_advance_characterization { initialWizardState with step := 3 } rfl).1 rfl,
   (step3_advance_characterization { initialWizardState with step := 3 } rfl).2.1 rfl,
   ((step3_advance_characterization
       { initialWizardState with step := 3, files := [⟨"a.txt", 7⟩] } rfl).2.2
     (by decide)).1⟩

/-! ## C10: the shipped submission cannot fail -/

/-- C10: in the shipped component the awaited promise is
`new Promise(resolve => setTimeout(resolve, 1500))`, which only ever resolves,
so `onSubmit` from any state ends with `submitSuccess` set, the in-flight flag
cleared, `submitError` null and no error toast — the `catch` branch is
unreachable because the simulated transport is the successful outcome. -/
theorem onSubmit_always_succeeds (s : WizardState) :
    onSubmit s
        = ({ s with isSubmitting := false, submitError := none, submitSuccess := true },
           none)
      ∧ simulatedTransport = .ok () := by
  exact ⟨rfl, rfl⟩

/-! ## C1: the wizard invariant -/

/-- C1: every reachable state of the shipped wizard satisfies the data-model
invariant — a non-empty project name of at least 3 characters whenever the
step is at least 2, and a non-empty analysis description of at least 10
characters whenever the step is at least 3; each UI operation (step-1 and
step-2 submission, file selection, SKIP, Next, and the submission events)
preserves it, which the induction over `Reachable` checks case by case. -/
theorem reachable_wizard_invariant (s : WizardState) (h : Reachable s) :
    WizardInv s := by
  induction h with
  | init =>
      exact ⟨by intro h2; simp [initialWizardState] at h2,
             by intro h3; simp [initialWizardState] at h3⟩
  | step1 s data _ hstep ih =>
      unfold onStep1Submit
      cases hv : projectNameSchema data with
      | valid =>
          obtain ⟨hne, hlen⟩ := projectNameSchema_valid_implies data hv
          exact ⟨fun _ => ⟨hne, hlen⟩, fun h3 => absurd h3 (by simp)⟩
      | invalid fld msg => exact ih
  | step2 s data _ hstep ih =>
      unfold onStep2Submit
      cases hv : analysisDescriptionSchema data with
      | valid =>
          obtain ⟨hne, hlen⟩ := analysisDescriptionSchema_valid_implies data hv
          exact ⟨fun _ => ih.1 (by omega), fun _ => ⟨hne, hlen⟩⟩
      | invalid fld msg => exact ih
  | selectFiles s fs _ hstep ih => exact ih
  | skipFiles s _ ih =>
      unfold step3SkipClick
      split
      next hg =>
        exact ⟨fun _ => ih.1 (by omega), fun _ => ih.2 (by omega)⟩
      next => exact ih
  | nextFiles s _ ih =>
      unfold step3NextClick
      split
      next hg =>
        exact ⟨fun _ => ih.1 (by omega), fun _ => ih.2 (by omega)⟩
      next => exact ih
  | submitClick s _ hstep ih =>
      unfold clickSubmit
      split
      · exact ih
      · exact ih
  | submitSettle s outcome _ hfl ih =>
      cases outcome with
      | ok u => exact ih
      | error reason => exact ih

/-- Witness for C1: the invariant holds at a concrete reachable state, the
one obtained from the initial state by a valid step-1 submission. -/
theorem reachable_wizard_invariant_witness :
    WizardInv (onStep1Submit "my project" initialWizardState).1 :=
  reachable_wizard_invariant (onStep1Submit "my project" initialWizardState).1
    (Reachable.step1 initialWizardState "my project" Reachable.init rfl)

/-! ## C9: the Typewriter text reveal -/

/-- Once the index has reached the end of the text, every further tick emits
nothing (the timeout callback body is guarded by `currentIndex < text.length`). -/
theorem twRun_of_done (s : TwState) (h : s.text.length ≤ s.currentIndex) :
    ∀ n, twRun s n = []
  | 0 => rfl
  | n + 1 => by
      have ht : twTick s = (s, none) := by
        unfold twTick
        rw [if_neg (by omega)]
      unfold twRun
      rw [ht]
      exact twRun_of_done s h n

/-- Unfolding lemma for one tick of the run. -/
theorem twRun_succ (s : TwState) (n : Nat) :
    twRun s (n + 1)
      = match twTick s with
        | (t, some d) => d :: twRun t n
        | (t, none) => twRun t n := rfl

/-- Every string emitted from a state whose displayed text is the length-`i`
prefix of the target is a strictly longer prefix of the same target. -/
theorem twRun_mem_prefix (t : String) :
    ∀ (n i : Nat) (d : String),
      d ∈ twRun ⟨t, String.mk (t.data.take i), i⟩ n →
      ∃ k, i < k ∧ k ≤ t.length ∧ d = String.mk (t.data.take k)
  | 0, i, d, hd => absurd hd (by simp [twRun])
  | n + 1, i, d, hd => by
      by_cases hlt : i < t.length
      · have hdata : i < t.data.length := hlt
        have hpush : (String.mk (t.data.take i)).push (t.data.getD i ' ')
            = String.mk (t.data.take (i + 1)) := by
          show String.mk (t.data.take i ++ [t.data.getD i ' ']) = _
          rw [List.getD_eq_getElem t.data ' ' hdata, List.take_concat_get']
        have ht : twTick ⟨t, String.mk (t.data.take i), i⟩
            = (⟨t, String.mk (t.data.take (i + 1)), i + 1⟩,
               some (String.mk (t.data.take (i + 1)))) := by
          unfold twTick
          rw [if_pos hlt]
          simp only [hpush]
        have hrun : twRun ⟨t, String.mk (t.data.take i), i⟩ (n + 1)
            = String.mk (t.data.take (i + 1))
                :: twRun ⟨t, String.mk (t.data.take (i + 1)), i + 1⟩ n := by
          rw [twRun_succ, ht]
        rw [hrun] at hd
        rcases List.mem_cons.mp hd with heq | hmem
        · exact ⟨i + 1, by omega, by omega, heq⟩
        · obtain ⟨k, hik, hkt, hdk⟩ := twRun_mem_prefix t n (i + 1) d hmem
          exact ⟨k, by omega, hkt, hdk⟩
      · have hdone : twRun ⟨t, String.mk (t.data.take i), i⟩ (n + 1) = [] :=
          twRun_of_done _ (by simpa using Nat.le_of_not_lt hlt) (n + 1)
        rw [hdone] at hd
        exact absurd hd (by simp)

/-- C9: the Typewriter, pointed at the text "hi" (the timing parameters
`delay = 0` and `speed = 10` only schedule the ticks, so after at least two
ticks have fired), has rendered exactly the sequence ["h", "hi"] and renders
nothing further; and whenever the target text changes before the sequence
completes, the pending tick is dropped and the machine restarts from the
empty prefix against the new text — the run after the change is exactly a
fresh run of the new text, and everything it emits is a (non-empty) prefix of
the new text, never of the abandoned one. -/
theorem typewriter_characterization :
    (∀ n, 2 ≤ n → twRun (twInit "hi") n = ["h", "hi"])
      ∧ (∀ (s : TwState) (t : String) (n : Nat),
          twRun (twSetText t s) n = twRun (twInit t) n)
      ∧ (∀ (s : TwState) (t : String) (n : Nat) (d : String),
          d ∈ twRun (twSetText t s) n →
          ∃ k, 0 < k ∧ k ≤ t.length ∧ d = String.mk (t.data.take k)) := by
  refine ⟨?_, fun s t n => rfl, ?_⟩
  · intro n hn
    obtain ⟨k, rfl⟩ : ∃ k, n = k + 2 := ⟨n - 2, by omega⟩
    have e1 : twRun (twInit "hi") (k + 1 + 1) = "h" :: twRun ⟨"hi", "h", 1⟩ (k + 1) := rfl
    have e2 : twRun ⟨"hi", "h", 1⟩ (k + 1) = "hi" :: twRun ⟨"hi", "hi", 2⟩ k := rfl
    show twRun (twInit "hi") (k + 1 + 1) = ["h", "hi"]
    rw [e1, e2, twRun_of_done ⟨"hi", "hi", 2⟩ (by decide) k]
  · intro s t n d hd
    have hd0 : d ∈ twRun ⟨t, String.mk (t.data.take 0), 0⟩ n := hd
    obtain ⟨k, h0k, hkt, hdk⟩ := twRun_mem_prefix t n 0 d hd0
    exact ⟨k, h0k, hkt, hdk⟩

/-- Witness for C9: five ticks on "hi" render exactly ["h", "hi"]; after the
target changes to "new", one tick renders exactly the fresh first prefix, and
the element "n" really is a one-character prefix of "new". -/
theorem typewriter_characterization_witness :
    twRun (twInit "hi") 5 = ["h", "hi"]
      ∧ twRun (twSetText "new" ⟨"hi", "h", 1⟩) 1 = twRun (twInit "new") 1
      ∧ ∃ k, 0 < k ∧ k ≤ "new".length ∧ "n" = String.mk ("new".data.take k) :=
  ⟨typewriter_characterization.1 5 (by decide),
   typewriter_characterization.2.1 ⟨"hi", "h", 1⟩ "new" 1,
   typewriter_characterization.2.2 ⟨"hi", "h", 1⟩ "new" 1 "n" (by decide)⟩
